import Mathlib

/-!
Shallow embedding of the VCloud cloud-provider core: the TTL-differentiated
instance cache (`instanceCache.get`, `isExpired`, `cleanupOldEntriesLocked`,
`invalidate`, `clear`), the retrying request client (`VCloudProvider.Request`),
the instance resolver (`GetInstanceInfo`, `isInstanceShutdown`) and node
identity extraction (`getProviderID`).

Durations and timestamps are modelled as natural numbers of nanoseconds
(Go's `time.Duration` / monotonic instants).  The Go map
`map[string]*cacheEntry` is modelled as an association list in which an
insert replaces any previous binding for the key.  Network effects are
modelled as oracles: the cache's fetch is an `Except` value, and the request
client consumes a function from attempt index to the attempt's outcome.
-/

/-- Go `time.Second` in nanoseconds. -/
def second : Nat := 1000000000

/-- `defaultTimeout = 60 * time.Second` (vcloud.go). -/
def defaultTimeout : Nat := 60 * second

/-- `maxRetries = 3` (vcloud.go). -/
def maxRetries : Nat := 3

/-- `instanceCacheTTL = 30 * time.Second` (vcloud.go). -/
def instanceCacheTTL : Nat := 30 * second

/-- `nonExistentCacheTTL = 5 * time.Second` (vcloud.go). -/
def nonExistentCacheTTL : Nat := 5 * second

/-- Go errors are modelled by their message. -/
abbrev GoError := String

/-- The `cluster` block nested in `Instance.Metadata` (instances.go). -/
structure InstanceClusterMeta where
  ID : String
  Zone : String
  Tenant : String
  deriving DecidableEq

/-- The `resources` block nested in `Instance.Metadata` (instances.go). -/
structure InstanceResourcesMeta where
  Cores : Int
  Memory : Int
  Volumes : Int
  deriving DecidableEq

/-- The anonymous `Metadata` struct of `Instance` (instances.go). -/
structure InstanceMeta where
  IP : String
  Flavor : String
  Cluster : InstanceClusterMeta
  Resources : InstanceResourcesMeta
  deriving DecidableEq

/-- `Instance` (instances.go); the Go field `Type` is renamed `Typ`
(`Type` is reserved in Lean). -/
structure Instance where
  Name : String
  ID : String
  UID : String
  Typ : String
  Zone : String
  Status : String
  State : String
  Owned : Bool
  Metadata : InstanceMeta
  deriving DecidableEq

/-- One `v1.NodeAddress` (type plus address). -/
structure NodeAddress where
  AddrType : String
  Address : String
  deriving DecidableEq

/-- `v1.NodeInternalIP`. -/
def NodeInternalIP : String := "InternalIP"

/-- `cloudprovider.InstanceMetadata`, as populated by `GetInstanceInfo`. -/
structure InstanceMetadata where
  ProviderID : String
  InstanceType : String
  Zone : String
  Region : String
  NodeAddresses : List NodeAddress
  AdditionalLabels : List (String × String)
  deriving DecidableEq

/-- `InstanceInfo` (instances.go).  Go nil pointers become `none`. -/
structure InstanceInfo where
  Exists : Bool
  Shutdown : Bool
  Metadata : Option InstanceMetadata
  RawInstance : Option Instance
  deriving DecidableEq

/-- `cacheEntry` (cache.go): an `InstanceInfo` with its fetch instant and TTL. -/
structure cacheEntry where
  info : InstanceInfo
  timestamp : Nat
  ttl : Nat
  deriving DecidableEq

/-- The cache's `map[string]*cacheEntry`, as an association list.  The list
produced by the operations below binds each key at most once. -/
abbrev CacheMap := List (String × cacheEntry)

/-- Go map read `entry, exists := c.cache[instanceID]`. -/
def lookupEntry (m : CacheMap) (id : String) : Option cacheEntry :=
  (m.find? fun p => p.1 = id).map Prod.snd

/-- Go map write `c.cache[instanceID] = entry`: replaces any prior binding. -/
def insertEntry (m : CacheMap) (id : String) (e : cacheEntry) : CacheMap :=
  (id, e) :: m.filter fun p => ¬ p.1 = id

/-- `instanceCache.isExpired` (cache.go): `time.Since(entry.timestamp) > entry.ttl`. -/
def isExpired (now : Nat) (entry : cacheEntry) : Bool :=
  entry.ttl < now - entry.timestamp

/-- `instanceCache.cleanupOldEntriesLocked` (cache.go): delete every entry
that is expired at `now`. -/
def cleanupOldEntriesLocked (now : Nat) (m : CacheMap) : CacheMap :=
  m.filter fun p => ¬ isExpired now p.2

/-- `instanceCache.invalidate` (cache.go). -/
def invalidate (m : CacheMap) (id : String) : CacheMap :=
  m.filter fun p => ¬ p.1 = id

/-- `instanceCache.clear` (cache.go). -/
def cacheClear (_ : CacheMap) : CacheMap := []

/-- The entry stored by `instanceCache.get` (cache.go lines 77-92): the fetch
instant becomes the timestamp and the TTL is `nonExistentCacheTTL` when the
instance does not exist, `instanceCacheTTL` otherwise. -/
def storedEntry (info : InstanceInfo) (now : Nat) : cacheEntry :=
  ⟨info, now, if !info.Exists then nonExistentCacheTTL else instanceCacheTTL⟩

/-- The miss/stale path of `instanceCache.get` (cache.go lines 69-102):
invoke `GetInstanceInfo` (its result is the `fetch` oracle), on error return
it with the map untouched, on success store `storedEntry info now` and sweep
when the map holds more than 100 entries.  The third component counts
`GetInstanceInfo` invocations. -/
def cacheFetchStore (m : CacheMap) (now : Nat) (fetch : Except GoError InstanceInfo)
    (instanceID : String) : Except GoError InstanceInfo × CacheMap × Nat :=
  match fetch with
  | Except.error e => (Except.error e, m, 1)
  | Except.ok info =>
      let m1 := insertEntry m instanceID (storedEntry info now)
      let m2 := if m1.length > 100 then cleanupOldEntriesLocked now m1 else m1
      (Except.ok info, m2, 1)

/-- `instanceCache.get` (cache.go): serve a fresh cached entry without any
fetch, otherwise fetch and store.  Returns the result, the new map state and
the number of `GetInstanceInfo` invocations (0 or 1). -/
def cacheGet (m : CacheMap) (now : Nat) (fetch : Except GoError InstanceInfo)
    (instanceID : String) : Except GoError InstanceInfo × CacheMap × Nat :=
  match lookupEntry m instanceID with
  | some entry =>
      if !isExpired now entry then (Except.ok entry.info, m, 0)
      else cacheFetchStore m now fetch instanceID
  | none => cacheFetchStore m now fetch instanceID

/-- Outcome of one attempt inside `VCloudProvider.Request`: either
`httpClient.Do` fails (transport/timeout/cancelled context) or it yields a
response with a status code. -/
inductive Attempt where
  | transportError
  | response (status : Nat)
  deriving DecidableEq

/-- What `Request` returns: the last response observed, or the transport
error of the final failed attempt. -/
inductive ReqOutcome where
  | ok (status : Nat)
  | transportFailure
  deriving DecidableEq

/-- Observable trace of one `Request` call: its outcome, how many attempts
were made, and the backoff sleeps performed (in seconds, in order). -/
structure ReqTrace where
  outcome : ReqOutcome
  attempts : Nat
  sleeps : List Nat
  deriving DecidableEq

/-- The retry loop of `VCloudProvider.Request` (vcloud.go lines 288-317),
running from loop index `i` with `rem = maxRetries - i` iterations left.
A failed `Do` retries after sleeping `i+1` seconds while `i < maxRetries-1`,
else returns the error; a response with status ≥ 500 retries the same way
while `i < maxRetries-1`, else the response is returned as-is. -/
def requestLoop (o : Nat → Attempt) (i : Nat) : Nat → ReqTrace
  | 0 => ⟨ReqOutcome.transportFailure, 0, []⟩
  | rem + 1 =>
      match o i with
      | Attempt.transportError =>
          if i < maxRetries - 1 then
            let t := requestLoop o (i + 1) rem
            ⟨t.outcome, t.attempts + 1, (i + 1) :: t.sleeps⟩
          else ⟨ReqOutcome.transportFailure, 1, []⟩
      | Attempt.response status =>
          if 500 ≤ status ∧ i < maxRetries - 1 then
            let t := requestLoop o (i + 1) rem
            ⟨t.outcome, t.attempts + 1, (i + 1) :: t.sleeps⟩
          else ⟨ReqOutcome.ok status, 1, []⟩

/-- `VCloudProvider.Request`: run the retry loop from attempt 0.  The oracle
`o` gives the outcome the transport would produce for each attempt index. -/
def Request (o : Nat → Attempt) : ReqTrace :=
  requestLoop o 0 maxRetries

/-- An attempt outcome that the loop's guards classify as retryable:
a transport failure or a status ≥ 500. -/
def retryable : Attempt → Bool
  | Attempt.transportError => true
  | Attempt.response status => 500 ≤ status

/-- The value `Request` produces when an attempt is terminal: the transport
error, or the response itself. -/
def termOutcome : Attempt → ReqOutcome
  | Attempt.transportError => ReqOutcome.transportFailure
  | Attempt.response status => ReqOutcome.ok status

/-- `isInstanceShutdown` (instances.go): membership in the fixed
shutdown-state set, `false` for every other string (Go map lookup with
zero-value default). -/
def isInstanceShutdown (state : String) : Bool :=
  state = "POWERED_OFF" || state = "SUSPENDED" || state = "TERMINATED" ||
    state = "BACKUP" || state = "BACKUP_POWEROFF"

/-- `GetInstanceInfo` (instances.go).  The network/decoding boundary is the
oracle `resp`: a request-layer error, or a status code paired with the JSON
decoding result of the body (`none` = decode failure, only consulted on
status 200).  Mirrors the source order: request error, 404, non-200, decode
failure, terminated status, live instance. -/
def GetInstanceInfo (resp : Except GoError (Nat × Option Instance))
    (instanceID : String) : Except GoError InstanceInfo :=
  match resp with
  | Except.error e =>
      Except.error ("failed to get instance " ++ instanceID ++ ": " ++ e)
  | Except.ok (status, body) =>
      if status = 404 then
        Except.ok ⟨false, false, none, none⟩
      else if ¬ status = 200 then
        Except.error ("unexpected status code " ++ toString status)
      else
        match body with
        | none => Except.error "failed to decode response"
        | some inst =>
            if inst.Status = "terminated" then
              Except.ok ⟨false, false, none, none⟩
            else
              Except.ok
                ⟨true, isInstanceShutdown inst.State,
                  some
                    ⟨instanceID, inst.Metadata.Flavor, inst.Zone,
                      inst.Metadata.Cluster.Tenant,
                      [⟨NodeInternalIP, inst.Metadata.IP⟩],
                      [("k8s.io.infra.vnetwork.dev/instance-type", inst.Metadata.Flavor),
                       ("k8s.io.infra.vnetwork.dev/cluster-id", inst.Metadata.Cluster.ID)]⟩,
                  some inst⟩

/-- Go `strings.Split` for a non-empty separator, on character lists, with
fuel bounding the recursion by the subject's length: split around each
non-overlapping occurrence of `sep`, scanning left to right. -/
def splitSepAux (sep : List Char) : Nat → List Char → List (List Char)
  | _, [] => [[]]
  | 0, s => [s]
  | fuel + 1, c :: cs =>
      if List.isPrefixOf sep (c :: cs) then
        [] :: splitSepAux sep fuel (List.drop (sep.length - 1) cs)
      else
        match splitSepAux sep fuel cs with
        | [] => [[c]]
        | h :: t => (c :: h) :: t

/-- Go `strings.Split(s, sep)` on strings (used with `sep = "://"`). -/
def goSplit (s sep : String) : List String :=
  (splitSepAux sep.data s.data.length s.data).map fun l => String.mk l

/-- `VCloudInstances.getProviderID` (instances.go): if the node's declared
provider ID is non-empty, split it on `"://"`; with exactly two parts return
the part after the separator, otherwise the declared ID verbatim; with an
empty declared ID fall back to the node name. -/
def getProviderID (providerID nodeName : String) : String :=
  if ¬ providerID = "" then
    match goSplit providerID "://" with
    | [_, p1] => p1
    | _ => providerID
  else nodeName

/-! ## Supporting lemmas about the cache operations -/

theorem lookupEntry_insert_self (m : CacheMap) (id : String) (e : cacheEntry) :
    lookupEntry (insertEntry m id e) id = some e := by
  unfold lookupEntry insertEntry
  rw [List.find?_cons_of_pos]
  · rfl
  · simp

theorem isExpired_storedEntry (info : InstanceInfo) (now : Nat) :
    isExpired now (storedEntry info now) = false := by
  simp [isExpired, storedEntry]

theorem lookupEntry_cleanup_insert_self (m : CacheMap) (id : String) (e : cacheEntry)
    (now : Nat) (hfresh : isExpired now e = false) :
    lookupEntry (cleanupOldEntriesLocked now (insertEntry m id e)) id = some e := by
  unfold cleanupOldEntriesLocked insertEntry lookupEntry
  rw [List.filter_cons_of_pos]
  · rw [List.find?_cons_of_pos]
    · rfl
    · simp
  · simp [hfresh]

theorem cacheGet_hit (m : CacheMap) (now : Nat) (fetch : Except GoError InstanceInfo)
    (id : String) (e : cacheEntry) (h : lookupEntry m id = some e)
    (hfresh : isExpired now e = false) :
    cacheGet m now fetch id = (Except.ok e.info, m, 0) := by
  unfold cacheGet
  rw [h]
  simp [hfresh]

theorem cacheGet_stale (m : CacheMap) (now : Nat) (fetch : Except GoError InstanceInfo)
    (id : String) (entry : cacheEntry) (hl : lookupEntry m id = some entry)
    (hex : isExpired now entry = true) :
    cacheGet m now fetch id = cacheFetchStore m now fetch id := by
  unfold cacheGet
  rw [hl]
  simp [hex]

theorem cacheGet_miss (m : CacheMap) (now : Nat) (fetch : Except GoError InstanceInfo)
    (id : String) (hl : lookupEntry m id = none) :
    cacheGet m now fetch id = cacheFetchStore m now fetch id := by
  unfold cacheGet
  rw [hl]

theorem cacheFetchStore_ok_lookup (m : CacheMap) (now : Nat) (id : String)
    (info : InstanceInfo) (m2 : CacheMap) (n : Nat)
    (h : cacheFetchStore m now (Except.ok info) id = (Except.ok info, m2, n)) :
    lookupEntry m2 id = some (storedEntry info now) := by
  unfold cacheFetchStore at h
  simp only [Prod.mk.injEq, Except.ok.injEq] at h
  obtain ⟨-, h2, -⟩ := h
  subst h2
  split
  · exact lookupEntry_cleanup_insert_self m id _ now (isExpired_storedEntry info now)
  · exact lookupEntry_insert_self m id _

theorem cacheGet_ok_lookup (m : CacheMap) (now : Nat)
    (fetch : Except GoError InstanceInfo) (id : String) (info : InstanceInfo)
    (m2 : CacheMap) (n : Nat)
    (h : cacheGet m now fetch id = (Except.ok info, m2, n)) :
    ∃ e, lookupEntry m2 id = some e ∧ e.info = info := by
  have store : cacheFetchStore m now fetch id = (Except.ok info, m2, n) →
      ∃ e, lookupEntry m2 id = some e ∧ e.info = info := by
    intro hs
    cases fetch with
    | error e => simp [cacheFetchStore] at hs
    | ok info0 =>
        have hinfo : info0 = info := by
          unfold cacheFetchStore at hs
          simp only [Prod.mk.injEq, Except.ok.injEq] at hs
          exact hs.1
        refine ⟨storedEntry info0 now, ?_, hinfo⟩
        exact cacheFetchStore_ok_lookup m now id info0 m2 n (hinfo.symm ▸ hs)
  cases hl : lookupEntry m id with
  | some entry =>
      cases hex : isExpired now entry with
      | false =>
          rw [cacheGet_hit m now fetch id entry hl hex] at h
          simp only [Prod.mk.injEq, Except.ok.injEq] at h
          exact ⟨entry, h.2.1 ▸ hl, h.1⟩
      | true =>
          rw [cacheGet_stale m now fetch id entry hl hex] at h
          exact store h
  | none =>
      rw [cacheGet_miss m now fetch id hl] at h
      exact store h

theorem cacheFetchStore_fetch_eq_one (m : CacheMap) (now : Nat)
    (fetch : Except GoError InstanceInfo) (id : String) :
    (cacheFetchStore m now fetch id).2.2 = 1 := by
  unfold cacheFetchStore
  cases fetch <;> simp

theorem cacheGet_fetch_le_one (m : CacheMap) (now : Nat)
    (fetch : Except GoError InstanceInfo) (id : String) :
    (cacheGet m now fetch id).2.2 ≤ 1 := by
  unfold cacheGet
  cases hl : lookupEntry m id with
  | some entry =>
      cases hex : isExpired now entry with
      | false => simp [hex]
      | true => simp [hex, cacheFetchStore_fetch_eq_one]
  | none => simp [cacheFetchStore_fetch_eq_one]

theorem cacheGet_store_of_fetch_one (m : CacheMap) (now : Nat)
    (fetch : Except GoError InstanceInfo) (id : String)
    (r : Except GoError InstanceInfo) (m2 : CacheMap)
    (hn : cacheGet m now fetch id = (r, m2, 1)) :
    cacheFetchStore m now fetch id = (r, m2, 1) := by
  cases hl : lookupEntry m id with
  | some entry =>
      cases hex : isExpired now entry with
      | false =>
          rw [cacheGet_hit m now fetch id entry hl hex] at hn
          simp at hn
      | true =>
          rw [cacheGet_stale m now fetch id entry hl hex] at hn
          exact hn
  | none =>
      rw [cacheGet_miss m now fetch id hl] at hn
      exact hn

/-! ## Claims about the instance cache -/

/-- C1: if the cache holds a fresh entry for `id` (its age at `now` is at
most its TTL), `get(id)` returns that entry's record with no fetch and no
state change; consequently, after a successful `get`, a second `get` within
the stored entry's TTL performs no fetch and returns the same record, so the
two calls together perform at most one fetch. -/
theorem cacheGet_fresh_hit_no_fetch :
    (∀ (m : CacheMap) (now : Nat) (fetch : Except GoError InstanceInfo) (id : String)
        (e : cacheEntry), lookupEntry m id = some e → isExpired now e = false →
        cacheGet m now fetch id = (Except.ok e.info, m, 0)) ∧
    (∀ (m : CacheMap) (now1 : Nat) (fetch1 : Except GoError InstanceInfo) (id : String)
        (info : InstanceInfo) (m1 : CacheMap) (n1 : Nat) (now2 : Nat)
        (fetch2 : Except GoError InstanceInfo) (e : cacheEntry),
        cacheGet m now1 fetch1 id = (Except.ok info, m1, n1) →
        lookupEntry m1 id = some e → isExpired now2 e = false →
        n1 ≤ 1 ∧ cacheGet m1 now2 fetch2 id = (Except.ok info, m1, 0)) := by
  constructor
  · exact fun m now fetch id e h hf => cacheGet_hit m now fetch id e h hf
  · intro m now1 fetch1 id info m1 n1 now2 fetch2 e h1 h2 h3
    obtain ⟨e', he', hinfo⟩ := cacheGet_ok_lookup m now1 fetch1 id info m1 n1 h1
    have hee : e' = e := by
      rw [he'] at h2
      exact (Option.some.injEq _ _).mp h2
    constructor
    · have hle := cacheGet_fetch_le_one m now1 fetch1 id
      rw [h1] at hle
      exact hle
    · have hei : e.info = info := hee ▸ hinfo
      rw [cacheGet_hit m1 now2 fetch2 id e h2 h3, hei]

/-- Witness for C1: a fresh hit served from the cache, and a
store-then-fresh-hit pair with a single fetch in total. -/
theorem cacheGet_fresh_hit_no_fetch_witness :
    (cacheGet [("i", ⟨⟨true, false, none, none⟩, 0, 30 * second⟩)] (10 * second)
        (Except.error "boom") "i" =
      (Except.ok ⟨true, false, none, none⟩,
        [("i", ⟨⟨true, false, none, none⟩, 0, 30 * second⟩)], 0)) ∧
    (1 ≤ 1 ∧
      cacheGet [("i", ⟨⟨true, false, none, none⟩, 0, instanceCacheTTL⟩)] (20 * second)
          (Except.error "boom") "i" =
        (Except.ok ⟨true, false, none, none⟩,
          [("i", ⟨⟨true, false, none, none⟩, 0, instanceCacheTTL⟩)], 0)) :=
  ⟨cacheGet_fresh_hit_no_fetch.1 _ _ _ "i"
      ⟨⟨true, false, none, none⟩, 0, 30 * second⟩ rfl rfl,
   cacheGet_fresh_hit_no_fetch.2 [] 0 (Except.ok ⟨true, false, none, none⟩) "i"
      ⟨true, false, none, none⟩ _ 1 (20 * second) (Except.error "boom")
      ⟨⟨true, false, none, none⟩, 0, instanceCacheTTL⟩ rfl rfl rfl⟩

/-- C2: every record stored by `get` is stored under a TTL that is exactly
`instanceCacheTTL` (30 s) when the record's existence flag is true and
`nonExistentCacheTTL` (5 s) when it is false. -/
theorem cacheGet_ttl_assignment (m : CacheMap) (now : Nat) (info : InstanceInfo)
    (id : String) (r : Except GoError InstanceInfo) (m2 : CacheMap) (n : Nat)
    (h : cacheGet m now (Except.ok info) id = (r, m2, n)) (hn : n = 1) :
    (∃ e, lookupEntry m2 id = some e ∧ e.info = info ∧ e.timestamp = now ∧
      e.ttl = if info.Exists = true then instanceCacheTTL else nonExistentCacheTTL) ∧
    instanceCacheTTL = 30 * second ∧ nonExistentCacheTTL = 5 * second := by
  subst hn
  have hs := cacheGet_store_of_fetch_one m now (Except.ok info) id r m2 h
  have hr : r = Except.ok info := by
    have hfst := congrArg Prod.fst hs
    simpa [cacheFetchStore] using hfst.symm
  subst hr
  refine ⟨⟨storedEntry info now,
      cacheFetchStore_ok_lookup m now id info m2 1 hs, rfl, rfl, ?_⟩, rfl, rfl⟩
  cases hE : info.Exists <;> simp [storedEntry, hE]

/-- Witness for C2: storing a non-existent record assigns the 5-second TTL. -/
theorem cacheGet_ttl_assignment_witness :
    (∃ e, lookupEntry [("gone", ⟨⟨false, false, none, none⟩, 7, nonExistentCacheTTL⟩)]
          "gone" = some e ∧
        e.info = ⟨false, false, none, none⟩ ∧ e.timestamp = 7 ∧
        e.ttl = if (⟨false, false, none, none⟩ : InstanceInfo).Exists = true then
          instanceCacheTTL else nonExistentCacheTTL) ∧
    instanceCacheTTL = 30 * second ∧ nonExistentCacheTTL = 5 * second :=
  cacheGet_ttl_assignment [] 7 ⟨false, false, none, none⟩ "gone"
    (Except.ok ⟨false, false, none, none⟩)
    [("gone", ⟨⟨false, false, none, none⟩, 7, nonExistentCacheTTL⟩)] 1 rfl rfl

/-- C3: when the fetch performed by `get(id)` fails, the error is returned
unchanged and the cache map is left exactly as it was (no entry added,
removed or replaced for any key). -/
theorem cacheGet_error_no_write (m : CacheMap) (now : Nat) (err : GoError)
    (id : String) :
    (cacheGet m now (Except.error err) id).2.1 = m ∧
    ((cacheGet m now (Except.error err) id).2.2 = 1 →
      (cacheGet m now (Except.error err) id).1 = Except.error err) := by
  cases hl : lookupEntry m id with
  | some entry =>
      cases hex : isExpired now entry with
      | false =>
          rw [cacheGet_hit m now _ id entry hl hex]
          exact ⟨rfl, fun h => by simp at h⟩
      | true =>
          rw [cacheGet_stale m now _ id entry hl hex]
          exact ⟨rfl, fun _ => rfl⟩
  | none =>
      rw [cacheGet_miss m now _ id hl]
      exact ⟨rfl, fun _ => rfl⟩

/-- Witness for C3: a failed fetch on a cache miss propagates the error and
leaves the (empty) map unchanged. -/
theorem cacheGet_error_no_write_witness :
    (cacheGet [] 0 (Except.error "boom") "i").2.1 = ([] : CacheMap) ∧
    (cacheGet [] 0 (Except.error "boom") "i").1 = Except.error "boom" :=
  ⟨(cacheGet_error_no_write [] 0 "boom" "i").1,
   (cacheGet_error_no_write [] 0 "boom" "i").2 rfl⟩

/-- C9: when the store performed by `get` makes the map exceed 100 entries,
the sweep keeps exactly the entries whose age at that moment is at most
their TTL (fresh entries are untouched, expired ones are removed); when the
map stays at or below 100 entries no sweep runs and the stored map is the
plain insertion. -/
theorem cacheGet_sweep_policy (m : CacheMap) (now : Nat) (info : InstanceInfo)
    (id : String) (r : Except GoError InstanceInfo) (m2 : CacheMap) (n : Nat)
    (h : cacheGet m now (Except.ok info) id = (r, m2, n)) (hn : n = 1) :
    ((insertEntry m id (storedEntry info now)).length ≤ 100 →
      m2 = insertEntry m id (storedEntry info now)) ∧
    (100 < (insertEntry m id (storedEntry info now)).length →
      ∀ (k : String) (e : cacheEntry),
        (k, e) ∈ m2 ↔ ((k, e) ∈ insertEntry m id (storedEntry info now) ∧
          now - e.timestamp ≤ e.ttl)) := by
  subst hn
  have hs := cacheGet_store_of_fetch_one m now (Except.ok info) id r m2 h
  unfold cacheFetchStore at hs
  simp only [Prod.mk.injEq] at hs
  obtain ⟨-, hm2, -⟩ := hs
  constructor
  · intro hle
    have hnot : ¬ (insertEntry m id (storedEntry info now)).length > 100 := by omega
    rw [← hm2, if_neg hnot]
  · intro hgt k e
    rw [← hm2, if_pos hgt]
    unfold cleanupOldEntriesLocked
    rw [List.mem_filter]
    simp [isExpired, Nat.not_lt]

/-- Witness for C9: a store that leaves the map at one entry triggers no
sweep. -/
theorem cacheGet_sweep_policy_witness :
    ([("i", ⟨⟨true, false, none, none⟩, 3, instanceCacheTTL⟩)] : CacheMap) =
      insertEntry [] "i" (storedEntry ⟨true, false, none, none⟩ 3) :=
  (cacheGet_sweep_policy [] 3 ⟨true, false, none, none⟩ "i"
      (Except.ok ⟨true, false, none, none⟩)
      [("i", ⟨⟨true, false, none, none⟩, 3, instanceCacheTTL⟩)] 1 rfl rfl).1
    (by decide)

/-! ## Claims about the request client -/

theorem Request_shape (o : Nat → Attempt) :
    Request o =
      if retryable (o 0) = false then ⟨termOutcome (o 0), 1, []⟩
      else if retryable (o 1) = false then ⟨termOutcome (o 1), 2, [1]⟩
      else ⟨termOutcome (o 2), 3, [1, 2]⟩ := by
  unfold Request
  cases h0 : o 0 with
  | response s0 =>
      by_cases hs0 : 500 ≤ s0
      · cases h1 : o 1 with
        | response s1 =>
            by_cases hs1 : 500 ≤ s1
            · cases h2 : o 2 <;>
                simp [requestLoop, maxRetries, retryable, termOutcome, h0, h1, h2,
                  hs0, hs1]
            · simp [requestLoop, maxRetries, retryable, termOutcome, h0, h1, hs0, hs1]
        | transportError =>
            cases h2 : o 2 <;>
              simp [requestLoop, maxRetries, retryable, termOutcome, h0, h1, h2, hs0]
      · simp [requestLoop, maxRetries, retryable, termOutcome, h0, hs0]
  | transportError =>
      cases h1 : o 1 with
      | response s1 =>
          by_cases hs1 : 500 ≤ s1
          · cases h2 : o 2 <;>
              simp [requestLoop, maxRetries, retryable, termOutcome, h0, h1, h2, hs1]
          · simp [requestLoop, maxRetries, retryable, termOutcome, h0, h1, hs1]
      | transportError =>
          cases h2 : o 2 <;>
            simp [requestLoop, maxRetries, retryable, termOutcome, h0, h1, h2]

/-- C4: `Request` makes at most `maxRetries = 3` attempts; every attempt it
retries was retryable (transport failure or status ≥ 500, so 4xx responses
are terminal); if it stops before exhausting the budget the last attempt was
not retryable; before the k-th retry it sleeps k seconds; and a run with
transport errors on attempts 1 and 2 and a 200 response on attempt 3
succeeds after exactly the two sleeps 1 s and 2 s. -/
theorem Request_retry_policy :
    (∀ o : Nat → Attempt, (Request o).attempts ≤ maxRetries) ∧
    (∀ (o : Nat → Attempt) (j : Nat), j + 1 < (Request o).attempts →
      retryable (o j) = true) ∧
    (∀ o : Nat → Attempt, (Request o).attempts < maxRetries →
      retryable (o ((Request o).attempts - 1)) = false) ∧
    (∀ o : Nat → Attempt,
      (Request o).sleeps = (List.range ((Request o).attempts - 1)).map (fun k => k + 1)) ∧
    Request (fun i => if i < 2 then Attempt.transportError else Attempt.response 200) =
      ⟨ReqOutcome.ok 200, 3, [1, 2]⟩ := by
  have hb : ∀ b : Bool, ¬ b = false → b = true := by
    intro b h
    cases b
    · exact absurd rfl h
    · rfl
  refine ⟨?_, ?_, ?_, ?_, by decide⟩
  · intro o
    rw [Request_shape o]
    by_cases hr0 : retryable (o 0) = false
    · simp [hr0, maxRetries]
    · by_cases hr1 : retryable (o 1) = false
      · simp [hr0, hr1, maxRetries]
      · simp [hr0, hr1, maxRetries]
  · intro o j hj
    rw [Request_shape o] at hj
    by_cases hr0 : retryable (o 0) = false
    · simp [hr0] at hj
    · by_cases hr1 : retryable (o 1) = false
      · simp [hr0, hr1] at hj
        have hj0 : j = 0 := by omega
        subst hj0
        exact hb _ hr0
      · simp [hr0, hr1] at hj
        have : j = 0 ∨ j = 1 := by omega
        rcases this with rfl | rfl
        · exact hb _ hr0
        · exact hb _ hr1
  · intro o hlt
    rw [Request_shape o] at hlt ⊢
    by_cases hr0 : retryable (o 0) = false
    · simp [hr0]
    · by_cases hr1 : retryable (o 1) = false
      · simp [hr0, hr1]
      · simp [hr0, hr1, maxRetries] at hlt
  · intro o
    rw [Request_shape o]
    by_cases hr0 : retryable (o 0) = false
    · simp [hr0]
    · by_cases hr1 : retryable (o 1) = false
      · simp [hr0, hr1, List.range_succ]
      · simp [hr0, hr1, List.range_succ]

/-- Witness for C4: a 403 response on the first attempt is terminal (no
retry, no sleeps), and the retried attempts of the all-transport-error run
were retryable. -/
theorem Request_retry_policy_witness :
    (Request (fun _ => Attempt.response 403)).attempts ≤ maxRetries ∧
    retryable ((fun _ => Attempt.transportError) 0) = true ∧
    retryable ((fun _ => Attempt.response 403) 0) = false ∧
    (Request (fun _ => Attempt.response 403)).sleeps =
      (List.range ((Request (fun _ => Attempt.response 403)).attempts - 1)).map
        (fun k => k + 1) :=
  ⟨Request_retry_policy.1 (fun _ => Attempt.response 403),
   Request_retry_policy.2.1 (fun _ => Attempt.transportError) 0 (by decide),
   Request_retry_policy.2.2.1 (fun _ => Attempt.response 403) (by decide),
   Request_retry_policy.2.2.2.1 (fun _ => Attempt.response 403)⟩

theorem cacheGet_error_map_unchanged (m : CacheMap) (now : Nat) (err : GoError)
    (id : String) : (cacheGet m now (Except.error err) id).2.1 = m := by
  cases hl : lookupEntry m id with
  | some entry =>
      cases hex : isExpired now entry with
      | false => rw [cacheGet_hit m now _ id entry hl hex]
      | true =>
          rw [cacheGet_stale m now _ id entry hl hex]
          rfl
  | none =>
      rw [cacheGet_miss m now _ id hl]
      rfl

/-- C5 counterexample: with the context cancelled before the first attempt
(so every transport call fails immediately), `Request` still performs all
three attempts and both backoff sleeps; the retry loop is not aborted after
the cancellation, refuting "performs no further retry attempts". -/
theorem Request_cancelled_still_retries :
    Request (fun _ => Attempt.transportError) =
      ⟨ReqOutcome.transportFailure, 3, [1, 2]⟩ ∧
    ¬ (Request (fun _ => Attempt.transportError)).attempts = 1 := by
  decide

/-- C5 (amended): a cancelled context makes every remaining transport call
fail, but the retry loop is NOT aborted: `Request` still performs all
`maxRetries = 3` attempts with the backoff sleeps 1 s and 2 s and then
returns an error; and a failed fetch writes no cache entry (the map is
returned unchanged by `get`). -/
theorem Request_cancelled_behavior :
    (∀ o : Nat → Attempt, (∀ i, o i = Attempt.transportError) →
      Request o = ⟨ReqOutcome.transportFailure, 3, [1, 2]⟩) ∧
    (∀ (m : CacheMap) (now : Nat) (err : GoError) (id : String),
      (cacheGet m now (Except.error err) id).2.1 = m) := by
  constructor
  · intro o h
    rw [Request_shape o]
    simp [h 0, h 1, h 2, retryable, termOutcome]
  · exact cacheGet_error_map_unchanged

/-- Witness for C5 (amended) at a concrete cancelled run and concrete cache
state. -/
theorem Request_cancelled_behavior_witness :
    Request (fun _ => Attempt.transportError) =
      ⟨ReqOutcome.transportFailure, 3, [1, 2]⟩ ∧
    (cacheGet [] 0 (Except.error "context canceled") "i").2.1 = ([] : CacheMap) :=
  ⟨Request_cancelled_behavior.1 (fun _ => Attempt.transportError) (fun _ => rfl),
   Request_cancelled_behavior.2 [] 0 "context canceled" "i"⟩

/-! ## Claims about instance resolution and identity extraction -/

/-- C6: `isInstanceShutdown` returns true on each of the five fixed
shutdown-state strings and false on every other string, including the empty
string. -/
theorem isInstanceShutdown_classification :
    (isInstanceShutdown "POWERED_OFF" = true ∧ isInstanceShutdown "SUSPENDED" = true ∧
     isInstanceShutdown "TERMINATED" = true ∧ isInstanceShutdown "BACKUP" = true ∧
     isInstanceShutdown "BACKUP_POWEROFF" = true) ∧
    (∀ s : String, ¬ s = "POWERED_OFF" → ¬ s = "SUSPENDED" → ¬ s = "TERMINATED" →
      ¬ s = "BACKUP" → ¬ s = "BACKUP_POWEROFF" → isInstanceShutdown s = false) := by
  constructor
  · exact ⟨by decide, by decide, by decide, by decide, by decide⟩
  · intro s h1 h2 h3 h4 h5
    simp [isInstanceShutdown, h1, h2, h3, h4, h5]

/-- Witness for C6: an unrecognized state and the empty string both classify
as not shutdown. -/
theorem isInstanceShutdown_classification_witness :
    isInstanceShutdown "RUNNING" = false ∧ isInstanceShutdown "" = false :=
  ⟨isInstanceShutdown_classification.2 "RUNNING" (by decide) (by decide) (by decide)
      (by decide) (by decide),
   isInstanceShutdown_classification.2 "" (by decide) (by decide) (by decide)
      (by decide) (by decide)⟩

/-- C7: `GetInstanceInfo` returns a record with `Exists = false` and no
error in exactly two cases — response status 404, or a 200 response whose
decoded instance has status "terminated"; any other non-200 status, and any
decode failure on a 200 response, return an error instead. -/
theorem GetInstanceInfo_absent_cases (resp : Except GoError (Nat × Option Instance))
    (id : String) :
    ((∃ info, GetInstanceInfo resp id = Except.ok info ∧ info.Exists = false) ↔
      ((∃ b, resp = Except.ok (404, b)) ∨
       (∃ inst, resp = Except.ok (200, some inst) ∧ inst.Status = "terminated"))) ∧
    (∀ (s : Nat) (b : Option Instance), resp = Except.ok (s, b) → ¬ s = 404 →
      ¬ s = 200 → ∃ e, GetInstanceInfo resp id = Except.error e) ∧
    (resp = Except.ok (200, none) → ∃ e, GetInstanceInfo resp id = Except.error e) := by
  cases resp with
  | error e =>
      refine ⟨by simp [GetInstanceInfo], ?_, ?_⟩
      · intro s b h
        exact absurd h (by simp)
      · intro h
        exact absurd h (by simp)
  | ok p =>
      obtain ⟨s, b⟩ := p
      by_cases h404 : s = 404
      · subst h404
        refine ⟨⟨fun _ => Or.inl ⟨b, rfl⟩,
            fun _ => ⟨⟨false, false, none, none⟩, by simp [GetInstanceInfo], rfl⟩⟩,
            ?_, ?_⟩
        · intro s' b' heq hn404 hn200
          simp only [Except.ok.injEq, Prod.mk.injEq] at heq
          exact absurd heq.1.symm hn404
        · intro heq
          simp at heq
      · by_cases h200 : s = 200
        · subst h200
          cases b with
          | none =>
              refine ⟨by simp [GetInstanceInfo], ?_, ?_⟩
              · intro s' b' heq hn404 hn200
                simp only [Except.ok.injEq, Prod.mk.injEq] at heq
                exact absurd heq.1.symm hn200
              · intro _
                exact ⟨"failed to decode response", by simp [GetInstanceInfo]⟩
          | some inst =>
              by_cases hterm : inst.Status = "terminated"
              · refine ⟨⟨fun _ => Or.inr ⟨inst, rfl, hterm⟩,
                    fun _ => ⟨⟨false, false, none, none⟩,
                      by simp [GetInstanceInfo, hterm], rfl⟩⟩, ?_, ?_⟩
                · intro s' b' heq hn404 hn200
                  simp only [Except.ok.injEq, Prod.mk.injEq] at heq
                  exact absurd heq.1.symm hn200
                · intro heq
                  simp at heq
              · refine ⟨by simp [GetInstanceInfo, hterm], ?_, ?_⟩
                · intro s' b' heq hn404 hn200
                  simp only [Except.ok.injEq, Prod.mk.injEq] at heq
                  exact absurd heq.1.symm hn200
                · intro heq
                  simp at heq
        · refine ⟨by simp [GetInstanceInfo, h404, h200], ?_, ?_⟩
          · intro s' b' heq hn404 hn200
            exact ⟨"unexpected status code " ++ toString s,
              by simp [GetInstanceInfo, h404, h200]⟩
          · intro heq
            simp only [Except.ok.injEq, Prod.mk.injEq] at heq
            exact absurd heq.1 h200

/-- Witness for C7: a 500 response yields an error. -/
theorem GetInstanceInfo_absent_cases_witness :
    ∃ e, GetInstanceInfo (Except.ok (500, none)) "i" = Except.error e :=
  (GetInstanceInfo_absent_cases (Except.ok (500, none)) "i").2.1 500 none rfl
    (by decide) (by decide)

theorem getProviderID_two_parts (pid name a b : String) (hp : ¬ pid = "")
    (hs : goSplit pid "://" = [a, b]) : getProviderID pid name = b := by
  unfold getProviderID
  rw [if_pos hp, hs]

theorem getProviderID_not_two_parts (pid name : String) (hp : ¬ pid = "")
    (hlen : ¬ (goSplit pid "://").length = 2) : getProviderID pid name = pid := by
  unfold getProviderID
  rw [if_pos hp]
  rcases hsp : goSplit pid "://" with _ | ⟨a, _ | ⟨b, _ | ⟨c, tl⟩⟩⟩
  · rfl
  · rfl
  · rw [hsp] at hlen
    exact absurd rfl hlen
  · rfl

/-- C8 counterexample: for the non-empty declared provider ID `"vcloud://"`
(a scheme separator with empty remainder) and the non-empty node name
`"node-789"`, `getProviderID` returns the empty string, refuting that the
empty string is returned only when both inputs are empty. -/
theorem getProviderID_empty_from_nonempty :
    getProviderID "vcloud://" "node-789" = "" ∧
    ¬ ("vcloud://" = "" ∧ "node-789" = "") := by
  decide

/-- C8 (amended): `getProviderID` is a pure total function implementing the
fallback order — `"vcloud://instance-123"` yields `"instance-123"`,
`"instance-456"` (no scheme separator) is returned unchanged, and an empty
provider ID falls back to the node name `"node-789"`; it returns the empty
string only when both inputs are empty or when the declared provider ID
splits on `"://"` into exactly two parts with an empty second part (such as
`"vcloud://"`). -/
theorem getProviderID_fallback :
    getProviderID "vcloud://instance-123" "node-789" = "instance-123" ∧
    getProviderID "instance-456" "node-789" = "instance-456" ∧
    getProviderID "" "node-789" = "node-789" ∧
    (∀ pid name : String, getProviderID pid name = "" →
      (pid = "" ∧ name = "") ∨ ∃ x, goSplit pid "://" = [x, ""]) := by
  refine ⟨by decide, by decide, by decide, ?_⟩
  intro pid name h
  by_cases hp : pid = ""
  · refine Or.inl ⟨hp, ?_⟩
    unfold getProviderID at h
    rw [if_neg (not_not_intro hp)] at h
    exact h
  · right
    by_cases hlen : (goSplit pid "://").length = 2
    · obtain ⟨a, b, hab⟩ := List.length_eq_two.mp hlen
      have hb : b = "" := (getProviderID_two_parts pid name a b hp hab).symm.trans h
      exact ⟨a, by rw [hab, hb]⟩
    · rw [getProviderID_not_two_parts pid name hp hlen] at h
      exact absurd h hp

/-- Witness for C8 (amended): the universally quantified clause applied at
the inputs of the counterexample. -/
theorem getProviderID_fallback_witness :
    ("vcloud://" = "" ∧ "node-789" = "") ∨
      ∃ x, goSplit "vcloud://" "://" = [x, ""] :=
  getProviderID_fallback.2.2.2 "vcloud://" "node-789" (by decide)

/-- C10: when the declared provider ID splits on `"://"` into more than two
parts, `getProviderID` returns the declared provider ID verbatim — the
scheme prefix is stripped only when the separator occurs exactly once. -/
theorem getProviderID_multi_separator (pid name : String)
    (h : 2 < (goSplit pid "://").length) : getProviderID pid name = pid := by
  by_cases hp : pid = ""
  · subst hp
    have hone : (goSplit "" "://").length = 1 := rfl
    omega
  · exact getProviderID_not_two_parts pid name hp (by omega)

/-- Witness for C10: a provider ID containing the separator twice is
returned verbatim. -/
theorem getProviderID_multi_separator_witness :
    getProviderID "vcloud://a://b" "node-789" = "vcloud://a://b" :=
  getProviderID_multi_separator "vcloud://a://b" "node-789" (by decide)
